import Mathlib

/-!
Shallow embedding of the parameter-range evaluation and compliance-aggregation
engine of `src/app.py` (a quality-inspection dashboard).

Modelling conventions:
* A dataset cell that must be coerced with `float(...)` is modelled as
  `Option ℚ`: `some q` is a value that parses as a float, `none` is a value
  (text, `NaN`, missing) on which `float(...)` raises.
* Python `dict`s keyed by parameter name are modelled as association lists in
  insertion order; lookup returns the first binding.
* A Python function whose body can raise an uncaught exception is modelled as
  `Option`-returning (`none` = the exception propagates to the caller).
* Statuses are the literal strings the code returns: `"PASS"`, `"FAIL_LOW"`,
  `"FAIL_HIGH"`, `"INVALID"`.
-/

namespace App

/-- One dataset row.  `Track`, `Quality` are identity/grade columns;
`Process_Parameters`, `Min`, `Max`, `Average` encode one range-definition
triple; `fields` holds the named measurement columns of the row
(`some q` = numeric value, `none` = NaN / non-numeric). -/
structure Row where
  Track : Int
  Quality : String
  Process_Parameters : String
  Min : Option ℚ
  Max : Option ℚ
  Average : Option ℚ
  fields : List (String × Option ℚ)
  deriving DecidableEq, Repr

/-- A resolved range entry `{min, max, avg}` (all three passed `float(...)`). -/
structure Range where
  min : ℚ
  max : ℚ
  avg : ℚ
  deriving DecidableEq, Repr

/-- First-binding lookup in an insertion-ordered association list (Python
`dict` membership / subscript, and the `next(... if param == param_name ...)`
scan over `parameter_ranges.items()`). -/
def alookup {β : Type} : List (String × β) → String → Option β
  | [], _ => none
  | (k, v) :: rest, p => if k = p then some v else alookup rest p

/-- One iteration of the first loop of `get_parameter_ranges`
(src/app.py:32-41): skip the row if the parameter name is already a key,
otherwise coerce `Min`/`Max`/`Average` with `float(...)` (an unparseable cell
raises, modelled as `none`) and append the new binding. -/
def insertRowRange (m : List (String × Range)) (r : Row) :
    Option (List (String × Range)) :=
  if (alookup m r.Process_Parameters).isSome then some m
  else
    match r.Min, r.Max, r.Average with
    | some mn, some mx, some av => some (m ++ [(r.Process_Parameters, ⟨mn, mx, av⟩)])
    | _, _, _ => none

/-- The row loop of `get_parameter_ranges` over the whole dataset: a raised
`ValueError` aborts the remaining iterations (the exception propagates). -/
def rangesFromRows (m : List (String × Range)) :
    List Row → Option (List (String × Range))
  | [] => some m
  | r :: rs =>
    match insertRowRange m r with
    | some m2 => rangesFromRows m2 rs
    | none => none

/-- Insert a domain-default range only if the key is absent
(src/app.py:45-64). -/
def addDefault (m : List (String × Range)) (k : String) (v : Range) :
    List (String × Range) :=
  if (alookup m k).isSome then m else m ++ [(k, v)]

/-- Function `get_parameter_ranges(df)` (src/app.py:22-69): derive first-seen ranges
from the `Process_Parameters` rows, then add fixed defaults for `CALIPER`,
`BULK`, `MOISTURE` when absent.  `none` = an uncaught coercion error. -/
def get_parameter_ranges (rows : List Row) : Option (List (String × Range)) :=
  (rangesFromRows [] rows).map fun m =>
    addDefault
      (addDefault (addDefault m "CALIPER" ⟨250, 300, 275⟩) "BULK" ⟨250, 350, 300⟩)
      "MOISTURE" ⟨200, 280, 240⟩

/-- Function `get_parameter_status(param_value, min_val, max_val)` (src/app.py:71-102):
coerce the three inputs (failure of any → `("INVALID", 0.0)`), swap `min`/`max`
when `min > max`, then classify with inclusive bounds and signed deviation
from the violated boundary. -/
def get_parameter_status (vRaw mnRaw mxRaw : Option ℚ) : String × ℚ :=
  match vRaw, mnRaw, mxRaw with
  | some v, some mn0, some mx0 =>
    let mn := if mn0 > mx0 then mx0 else mn0
    let mx := if mn0 > mx0 then mn0 else mx0
    if mn ≤ v ∧ v ≤ mx then ("PASS", 0)
    else if v < mn then ("FAIL_LOW", v - mn)
    else ("FAIL_HIGH", v - mx)
  | _, _, _ => ("INVALID", 0)

/-- One per-parameter verdict of the Track ID Search analysis loop
(src/app.py:1272-1280). -/
structure Verdict where
  name : String
  value : ℚ
  min : ℚ
  max : ℚ
  deviation : ℚ
  status : String
  group : String
  deriving DecidableEq, Repr

/-- Body of the parameter-analysis loop (src/app.py:1252-1287) for one
`(group, param)` pair: the parameter must be a column of the record with a
non-NaN numeric value (`some (some v)`), and must have a range in
`parameter_ranges`; then `get_parameter_status` produces the verdict. -/
def evalGroupParam (record : List (String × Option ℚ))
    (ranges : List (String × Range)) (g p : String) : Option Verdict :=
  match alookup record p with
  | some (some v) =>
    match alookup ranges p with
    | some rg =>
      let sd := get_parameter_status (some v) (some rg.min) (some rg.max)
      some ⟨p, v, rg.min, rg.max, sd.2, sd.1, g⟩
    | none => none
  | _ => none

/-- The full parameter-analysis loop (src/app.py:1252-1287): iterate the
parameter groups in order, emitting one verdict per in-scope parameter. -/
def evalParams (groups : List (String × List String))
    (record : List (String × Option ℚ)) (ranges : List (String × Range)) :
    List Verdict :=
  groups.flatMap fun g => g.2.filterMap (evalGroupParam record ranges g.1)

/-- The `failures` list (src/app.py:1281-1285): verdicts with status other
than `"PASS"` (`out_of_range_params` receives exactly the same entries). -/
def failuresOf (vs : List Verdict) : List Verdict :=
  vs.filter fun v => v.status ≠ "PASS"

/-- The Overall Status metric (src/app.py:1360):
`quality_status = "FAIL" if failures else "PASS"`.  The record is passed
whole; only its measurement `fields` are read. -/
def quality_status (groups : List (String × List String)) (row : Row)
    (ranges : List (String × Range)) : String :=
  if (failuresOf (evalParams groups row.fields ranges)).isEmpty then "PASS"
  else "FAIL"

/-- Descending-|deviation| order used for failure display:
`key=lambda x: abs(x['deviation']), reverse=True`. -/
def devGE (a b : Verdict) : Prop := |b.deviation| ≤ |a.deviation|

instance : DecidableRel devGE := fun a b =>
  inferInstanceAs (Decidable (|b.deviation| ≤ |a.deviation|))

instance : IsTotal Verdict devGE := ⟨fun a b => le_total _ _⟩

instance : IsTrans Verdict devGE := ⟨fun _ _ _ h1 h2 => le_trans h2 h1⟩

/-- The `sorted_out_of_range` list (src/app.py:1312-1314, same key as the `failures`
sort at line 1297): a stable sort by descending absolute deviation. -/
def sorted_out_of_range (vs : List Verdict) : List Verdict :=
  List.insertionSort devGE vs

/-- The NOT OK subset of the dataset (src/app.py:561):
`df[df['Quality'].str.strip().str.upper() != 'OK']`. -/
def not_ok_rows (rows : List Row) : List Row :=
  rows.filter fun r => r.Quality.trim.toUpper ≠ "OK"

/-- First-occurrence-preserving deduplication (pandas `.unique()`), with an
accumulator of already-seen identifiers. -/
def uniqueAux (seen : List Int) : List Int → List Int
  | [] => []
  | a :: as =>
    if a ∈ seen then uniqueAux seen as else a :: uniqueAux (a :: seen) as

/-- The unique NOT OK track identifiers:
`not_ok_track_ids = not_ok_rows['Track'].unique()` (src/app.py:570). -/
def not_ok_track_ids (rows : List Row) : List Int :=
  uniqueAux [] ((not_ok_rows rows).map Row.Track)

/-- The representative value for a (track, parameter) pair
(src/app.py:622-636): the first dataset row whose `Track` matches, that row's
value in the parameter column; NaN (`some none`) and a missing column
(exception, swallowed by the `except: pass`) both yield no value. -/
def trackParamValue (rows : List Row) (t : Int) (p : String) : Option ℚ :=
  match rows.find? (fun r => r.Track == t) with
  | some r =>
    match alookup r.fields p with
    | some cell => cell
    | none => none
  | none => none

/-- The inline out-of-range check of the Overall Analysis failure loop
(src/app.py:643): `not (min_val <= value <= max_val)`, on the raw range
entry, with no min/max swap. -/
def track_fails (rows : List Row) (t : Int) (p : String) (rg : Range) : Bool :=
  match trackParamValue rows t p with
  | some v => if rg.min ≤ v ∧ v ≤ rg.max then false else true
  | none => false

/-- The count `param_failures[param]` (src/app.py:619-650): over the unique NOT OK
track ids, the number of tracks whose representative value for `p` fails the
inline range check (one increment per track at most). -/
def failure_count (rows : List Row) (tracks : List Int) (p : String)
    (rg : Range) : Nat :=
  (tracks.filter fun t => track_fails rows t p rg).length

/-- Modelled from the spec (§4.4): the failure test the specification
prescribes for the Population Aggregator — run the Status Classifier on the
representative value and count the track iff the status is not `"PASS"`.
Kept separate from `track_fails` (the code's inline check) so the two can be
compared. -/
def track_fails_by_classifier (rows : List Row) (t : Int) (p : String)
    (rg : Range) : Bool :=
  match trackParamValue rows t p with
  | some v =>
    if (get_parameter_status (some v) (some rg.min) (some rg.max)).1 = "PASS"
    then false else true
  | none => false

/-- Round half to even (numpy/pandas `.round` tie policy) to an integer. -/
def roundHalfEven (q : ℚ) : ℤ :=
  if q - ⌊q⌋ < 1/2 then ⌊q⌋
  else if 1/2 < q - ⌊q⌋ then ⌊q⌋ + 1
  else if Even ⌊q⌋ then ⌊q⌋ else ⌊q⌋ + 1

/-- Pandas `.round(1)`: round to one decimal place. -/
def round1 (q : ℚ) : ℚ := (roundHalfEven (q * 10) : ℚ) / 10

/-- The column `failure_data['Failure Percentage']` (src/app.py:661):
`(count / len(not_ok_track_ids) * 100).round(1)`. -/
def failure_percentage (rows : List Row) (tracks : List Int) (p : String)
    (rg : Range) : ℚ :=
  round1 ((failure_count rows tracks p rg : ℚ) / (tracks.length : ℚ) * 100)

/-! ### Helper lemmas about the Status Classifier -/

/-- On numeric inputs the classifier is the three-way comparison against the
normalized (sorted) pair of bounds. -/
lemma get_parameter_status_eq (v mn mx : ℚ) :
    get_parameter_status (some v) (some mn) (some mx) =
      if min mn mx ≤ v ∧ v ≤ max mn mx then ("PASS", 0)
      else if v < min mn mx then ("FAIL_LOW", v - min mn mx)
      else ("FAIL_HIGH", v - max mn mx) := by
  unfold get_parameter_status
  rcases le_or_lt mn mx with h | h
  · simp only [gt_iff_lt, if_neg (not_lt.2 h), min_eq_left h, max_eq_right h]
  · simp only [gt_iff_lt, if_pos h, min_eq_right h.le, max_eq_left h.le]

/-- The classifier on numeric inputs returns one of the three verdicts,
never `"INVALID"`. -/
lemma get_parameter_status_cases (v mn mx : ℚ) :
    (get_parameter_status (some v) (some mn) (some mx)).1 = "PASS" ∨
    (get_parameter_status (some v) (some mn) (some mx)).1 = "FAIL_LOW" ∨
    (get_parameter_status (some v) (some mn) (some mx)).1 = "FAIL_HIGH" := by
  rw [get_parameter_status_eq]
  split_ifs <;> simp

/-- On numeric inputs, `"PASS"` is returned exactly on the (normalized)
inclusive range. -/
lemma get_parameter_status_pass_iff (v mn mx : ℚ) :
    (get_parameter_status (some v) (some mn) (some mx)).1 = "PASS" ↔
      min mn mx ≤ v ∧ v ≤ max mn mx := by
  rw [get_parameter_status_eq]
  split_ifs with h1 h2
  · simpa using h1
  · simp only [String.reduceEq, false_iff]
    exact h1
  · simp only [String.reduceEq, false_iff]
    exact h1

/-! ### Claims about the Status Classifier -/

/-- Claim C5: for numeric inputs, `get_parameter_status` — after swapping min
and max when min > max — returns `("PASS", 0)` when min ≤ value ≤ max
(inclusive both ends), `("FAIL_LOW", value − min)` when value < min, and
`("FAIL_HIGH", value − max)` otherwise; in particular
`classify(25,10,20) = ("FAIL_HIGH", 5)`, `classify(5,10,20) = ("FAIL_LOW", −5)`
and `classify(15,20,10) = ("PASS", 0)`. -/
theorem c5_classifier_contract :
    (∀ v mn mx : ℚ,
      get_parameter_status (some v) (some mn) (some mx) =
        if min mn mx ≤ v ∧ v ≤ max mn mx then ("PASS", 0)
        else if v < min mn mx then ("FAIL_LOW", v - min mn mx)
        else ("FAIL_HIGH", v - max mn mx)) ∧
    get_parameter_status (some 25) (some 10) (some 20) = ("FAIL_HIGH", 5) ∧
    get_parameter_status (some 5) (some 10) (some 20) = ("FAIL_LOW", -5) ∧
    get_parameter_status (some 15) (some 20) (some 10) = ("PASS", 0) := by
  refine ⟨get_parameter_status_eq, ?_, ?_, ?_⟩ <;> norm_num [get_parameter_status]

/-- Claim C4, counterexample: at the input triple
`(value, min, max) = ("not a number", 0, 1)` the classifier returns
deviation `0` with status `"INVALID"`, so "deviation = 0 iff status = PASS"
is false for that triple. -/
theorem c4_counterexample :
    (get_parameter_status none (some 0) (some 1)).2 = 0 ∧
    (get_parameter_status none (some 0) (some 1)).1 ≠ "PASS" := by
  constructor
  · rfl
  · decide

/-- Claim C4 (amended): for every numeric input triple — the inputs on which
coercion succeeds — the deviation is negative iff the status is `"FAIL_LOW"`,
positive iff it is `"FAIL_HIGH"`, and zero iff it is `"PASS"`; on a triple
that fails numeric coercion the status is `"INVALID"` with deviation `0`. -/
theorem c4_deviation_sign (v mn mx : ℚ) :
    ((get_parameter_status (some v) (some mn) (some mx)).2 < 0 ↔
      (get_parameter_status (some v) (some mn) (some mx)).1 = "FAIL_LOW") ∧
    (0 < (get_parameter_status (some v) (some mn) (some mx)).2 ↔
      (get_parameter_status (some v) (some mn) (some mx)).1 = "FAIL_HIGH") ∧
    ((get_parameter_status (some v) (some mn) (some mx)).2 = 0 ↔
      (get_parameter_status (some v) (some mn) (some mx)).1 = "PASS") := by
  rw [get_parameter_status_eq]
  split_ifs with h1 h2
  · exact ⟨iff_of_false (lt_irrefl 0) (by decide), iff_of_false (lt_irrefl 0) (by decide),
      iff_of_true rfl rfl⟩
  · have hneg : v - min mn mx < 0 := sub_neg.2 h2
    exact ⟨iff_of_true hneg rfl, iff_of_false (lt_asymm hneg) (by simp),
      iff_of_false (ne_of_lt hneg) (by simp)⟩
  · have hle : min mn mx ≤ v := not_lt.1 h2
    have hgt : max mn mx < v := by
      rcases not_and_or.1 h1 with h | h
      · exact absurd hle h
      · exact not_le.1 h
    have hpos : 0 < v - max mn mx := sub_pos.2 hgt
    exact ⟨iff_of_false (lt_asymm hpos) (by simp), iff_of_true hpos rfl,
      iff_of_false (ne_of_gt hpos) (by simp)⟩

/-! ### Claims about the Range Resolver and its interaction with the classifier -/

/-- Claim C1, counterexample: on a dataset whose single row declares
`Min = 20 > Max = 10`, `get_parameter_ranges` returns an entry whose stored
`min` exceeds its stored `max` — the resolver applies no swap. -/
theorem c1_counterexample :
    (get_parameter_ranges [⟨0, "OK", "X", some 20, some 10, some 15, []⟩]).map
        (fun m => alookup m "X") = some (some ⟨20, 10, 15⟩) ∧
    ¬ (Range.mk 20 10 15).min ≤ (Range.mk 20 10 15).max := by
  constructor
  · norm_num [get_parameter_ranges, rangesFromRows, insertRowRange, addDefault, alookup]
  · norm_num

/-- Claim C1 (amended): the Range Map stores each first-seen row's Min/Max
verbatim, so an entry may have min > max; the min ≤ max normalization is
instead applied by the Status Classifier at evaluation time — classification
is invariant under swapping the min and max arguments, so every entry is
evaluated as if min ≤ max. -/
theorem c1_swap_normalization (v mn mx : Option ℚ) :
    get_parameter_status v mn mx = get_parameter_status v mx mn := by
  match v, mn, mx with
  | none, _, _ => rfl
  | some v, none, none => rfl
  | some v, some a, none => rfl
  | some v, none, some b => rfl
  | some v, some a, some b =>
    rw [get_parameter_status_eq, get_parameter_status_eq, min_comm, max_comm]

/-- Claim C1 (amended), witness at a concrete transposed range. -/
theorem c1_swap_normalization_witness :
    get_parameter_status (some 15) (some 20) (some 10) =
      get_parameter_status (some 15) (some 10) (some 20) :=
  c1_swap_normalization (some 15) (some 20) (some 10)

/-- Claim C2, counterexample: a dataset whose first row has an unparseable
`Min` (and a second, fully parseable row) makes `get_parameter_ranges` abort
with an exception (`none`) instead of skipping the bad row and returning a
map covering the remaining row. -/
theorem c2_counterexample :
    get_parameter_ranges
      [⟨0, "OK", "A", none, some 10, some 15, []⟩,
       ⟨1, "OK", "B", some 1, some 2, some 3, []⟩] = none := by
  norm_num [get_parameter_ranges, rangesFromRows, insertRowRange, addDefault, alookup]

/-- Claim C2 (amended): during range resolution a row whose parameter name is
already in the map is skipped without parsing its Min/Max/Average; otherwise
a row whose Min, Max, or Average cannot be parsed as floating point raises,
aborting resolution for the whole dataset (no map is returned), rather than
being skipped. -/
theorem c2_unparseable_row_aborts (m : List (String × Range)) (r : Row)
    (rest : List Row) :
    (alookup m r.Process_Parameters = none →
      (r.Min = none ∨ r.Max = none ∨ r.Average = none) →
      rangesFromRows m (r :: rest) = none) ∧
    ((alookup m r.Process_Parameters).isSome = true →
      rangesFromRows m (r :: rest) = rangesFromRows m rest) ∧
    (∀ rows : List Row, rangesFromRows [] rows = none →
      get_parameter_ranges rows = none) := by
  refine ⟨?_, ?_, ?_⟩
  · intro habs hbad
    have hin : insertRowRange m r = none := by
      unfold insertRowRange
      rw [if_neg (by simp [habs])]
      rcases hMin : r.Min with _ | a <;> rcases hMax : r.Max with _ | b <;>
        rcases hAvg : r.Average with _ | c <;> simp_all
    simp [rangesFromRows, hin]
  · intro hpres
    have hin : insertRowRange m r = some m := by
      unfold insertRowRange
      rw [if_pos hpres]
    simp [rangesFromRows, hin]
  · intro rows h
    simp [get_parameter_ranges, h]

/-- Claim C2 (amended), witness: both branches at concrete inputs — the abort
on an unparseable first-seen row, and the skip of an already-present name. -/
theorem c2_unparseable_row_aborts_witness :
    rangesFromRows [] [⟨0, "OK", "A", none, some 10, some 15, []⟩] = none ∧
    rangesFromRows [("A", ⟨1, 2, 3⟩)] [⟨0, "OK", "A", none, some 10, some 15, []⟩] =
      rangesFromRows [("A", ⟨1, 2, 3⟩)] [] := by
  constructor
  · exact (c2_unparseable_row_aborts [] ⟨0, "OK", "A", none, some 10, some 15, []⟩ []).1
      rfl (Or.inl rfl)
  · exact (c2_unparseable_row_aborts [("A", ⟨1, 2, 3⟩)]
      ⟨0, "OK", "A", none, some 10, some 15, []⟩ []).2.1 (by decide)

/-! ### Claims about the Population Aggregator -/

/-- Claim C3, counterexample: with a range entry whose stored min (20)
exceeds its stored max (10) — exactly what a transposed `Process_Parameters`
row produces, see `c1_counterexample` — the aggregator's inline check counts
the representative value 15 as a failure, while the Status Classifier (which
swaps the bounds) returns `"PASS"` for the same (value, range) pair.  So the
failure count is not incremented "exactly when classify ≠ PASS". -/
theorem c3_counterexample :
    track_fails [⟨1, "NOT OK", "X", some 20, some 10, some 15, [("X", some 15)]⟩]
      1 "X" ⟨20, 10, 15⟩ = true ∧
    (get_parameter_status (some 15) (some 20) (some 10)).1 = "PASS" := by
  constructor
  · norm_num [track_fails, trackParamValue, alookup, List.find?]
  · norm_num [get_parameter_status]

/-- Claim C3 (amended): the Population Aggregator increments a parameter's
failure count for a track exactly when the raw inline check
`not (min ≤ value ≤ max)` holds for the representative value (the first
record matching that track identifier); whenever the range entry satisfies
min ≤ max this coincides with the Status Classifier returning a status other
than `"PASS"`, so under that proviso the per-parameter failure count equals
the count obtained through the classifier. -/
theorem c3_inline_check_matches_classifier (rows : List Row)
    (tracks : List Int) (t : Int) (p : String) (rg : Range)
    (h : rg.min ≤ rg.max) :
    track_fails rows t p rg = track_fails_by_classifier rows t p rg ∧
    failure_count rows tracks p rg =
      (tracks.filter fun t2 => track_fails_by_classifier rows t2 p rg).length := by
  have key : ∀ t2 : Int,
      track_fails rows t2 p rg = track_fails_by_classifier rows t2 p rg := by
    intro t2
    unfold track_fails track_fails_by_classifier
    rcases trackParamValue rows t2 p with _ | v
    · rfl
    · show (if rg.min ≤ v ∧ v ≤ rg.max then false else true) =
        if (get_parameter_status (some v) (some rg.min) (some rg.max)).1 = "PASS"
        then false else true
      have hiff := get_parameter_status_pass_iff v rg.min rg.max
      rw [min_eq_left h, max_eq_right h] at hiff
      by_cases hc : rg.min ≤ v ∧ v ≤ rg.max
      · rw [if_pos hc, if_pos (hiff.2 hc)]
      · rw [if_neg hc, if_neg (fun hp => hc (hiff.1 hp))]
  refine ⟨key t, ?_⟩
  unfold failure_count
  rw [List.filter_congr fun t2 _ => key t2]

/-- Claim C3 (amended), witness at a concrete dataset: one NOT OK track whose
`CALIPER` value 5 lies outside the well-formed range [10, 20]. -/
theorem c3_inline_check_matches_classifier_witness :
    (track_fails [⟨1, "NOT OK", "CALIPER", some 10, some 20, some 15, [("CALIPER", some 5)]⟩]
        1 "CALIPER" ⟨10, 20, 15⟩ =
      track_fails_by_classifier
        [⟨1, "NOT OK", "CALIPER", some 10, some 20, some 15, [("CALIPER", some 5)]⟩]
        1 "CALIPER" ⟨10, 20, 15⟩) ∧
    failure_count [⟨1, "NOT OK", "CALIPER", some 10, some 20, some 15, [("CALIPER", some 5)]⟩]
        [1] "CALIPER" ⟨10, 20, 15⟩ =
      (([1] : List Int).filter fun t2 => track_fails_by_classifier
        [⟨1, "NOT OK", "CALIPER", some 10, some 20, some 15, [("CALIPER", some 5)]⟩]
        t2 "CALIPER" ⟨10, 20, 15⟩).length :=
  c3_inline_check_matches_classifier
    [⟨1, "NOT OK", "CALIPER", some 10, some 20, some 15, [("CALIPER", some 5)]⟩]
    [1] 1 "CALIPER" ⟨10, 20, 15⟩ (by norm_num)

/-! ### Association-list lemmas for the Range Resolver -/

lemma alookup_nil {β : Type} (p : String) :
    alookup ([] : List (String × β)) p = none := rfl

lemma alookup_append_of_some {β : Type} {m1 : List (String × β)}
    (m2 : List (String × β)) {p : String} {w : β}
    (h : alookup m1 p = some w) : alookup (m1 ++ m2) p = some w := by
  induction m1 with
  | nil => simp [alookup] at h
  | cons kv rest ih =>
    rcases kv with ⟨k, v⟩
    by_cases hk : k = p
    · simpa [alookup, hk] using h
    · rw [alookup, if_neg hk] at h
      simpa [alookup, hk] using ih h

lemma alookup_append_of_none {β : Type} {m1 : List (String × β)}
    (m2 : List (String × β)) {p : String}
    (h : alookup m1 p = none) : alookup (m1 ++ m2) p = alookup m2 p := by
  induction m1 with
  | nil => simp [alookup]
  | cons kv rest ih =>
    rcases kv with ⟨k, v⟩
    by_cases hk : k = p
    · simp [alookup, hk] at h
    · rw [alookup, if_neg hk] at h
      simpa [alookup, hk] using ih h

lemma alookup_single_self {p : String} (w : Range) :
    alookup [(p, w)] p = some w := by
  simp [alookup]

lemma alookup_single_of_ne {k p : String} (w : Range) (h : k ≠ p) :
    alookup [(k, w)] p = none := by
  simp [alookup, h]

/-- Adding a default never disturbs a binding that is already present. -/
lemma alookup_addDefault_of_some {m : List (String × Range)} (k : String)
    (v : Range) {p : String} {w : Range} (h : alookup m p = some w) :
    alookup (addDefault m k v) p = some w := by
  unfold addDefault
  split_ifs
  · exact h
  · exact alookup_append_of_some _ h

/-- Adding a default at a different key does not change a lookup. -/
lemma alookup_addDefault_of_ne {m : List (String × Range)} {k p : String}
    (v : Range) (h : k ≠ p) :
    alookup (addDefault m k v) p = alookup m p := by
  unfold addDefault
  split_ifs
  · rfl
  · rcases hm : alookup m p with _ | w
    · rw [alookup_append_of_none _ hm, alookup_single_of_ne _ h]
    · exact alookup_append_of_some _ hm

/-- Adding a default inserts the default value exactly when the key is absent. -/
lemma alookup_addDefault_of_none {m : List (String × Range)} {k : String}
    (v : Range) (h : alookup m k = none) :
    alookup (addDefault m k v) k = some v := by
  unfold addDefault
  rw [if_neg (by simp [h]), alookup_append_of_none _ h, alookup_single_self]

/-- Adding a default always leaves its key present. -/
lemma alookup_addDefault_isSome (m : List (String × Range)) (k : String)
    (v : Range) : (alookup (addDefault m k v) k).isSome = true := by
  rcases hm : alookup m k with _ | w
  · rw [alookup_addDefault_of_none v hm]
    rfl
  · rw [alookup_addDefault_of_some k v hm]
    rfl

/-- The resolver loop never disturbs a binding that is already present. -/
lemma rangesFromRows_pres_some {p : String} {w : Range} :
    ∀ {m m2 : List (String × Range)} (rs : List Row),
      alookup m p = some w → rangesFromRows m rs = some m2 →
      alookup m2 p = some w := by
  intro m m2 rs
  induction rs generalizing m with
  | nil =>
    intro h hres
    rw [rangesFromRows] at hres
    cases hres
    exact h
  | cons r rest ih =>
    intro h hres
    rw [rangesFromRows] at hres
    rcases hins : insertRowRange m r with _ | m1
    · rw [hins] at hres
      exact absurd hres (by simp)
    · rw [hins] at hres
      refine ih ?_ hres
      unfold insertRowRange at hins
      split_ifs at hins with hk
      · cases hins
        exact h
      · rcases hMin : r.Min with _ | a <;> rcases hMax : r.Max with _ | b <;>
          rcases hAvg : r.Average with _ | c <;> rw [hMin, hMax, hAvg] at hins <;>
          simp only [Option.some.injEq, reduceCtorEq] at hins
        subst hins
        exact alookup_append_of_some _ h

/-- A parameter name carried by no processed row stays absent from the
accumulated map. -/
lemma rangesFromRows_pres_none {p : String} :
    ∀ {m m2 : List (String × Range)} (rs : List Row),
      (∀ r ∈ rs, r.Process_Parameters ≠ p) →
      alookup m p = none → rangesFromRows m rs = some m2 →
      alookup m2 p = none := by
  intro m m2 rs
  induction rs generalizing m with
  | nil =>
    intro _ h hres
    rw [rangesFromRows] at hres
    cases hres
    exact h
  | cons r rest ih =>
    intro hnames h hres
    rw [rangesFromRows] at hres
    rcases hins : insertRowRange m r with _ | m1
    · rw [hins] at hres
      exact absurd hres (by simp)
    · rw [hins] at hres
      refine ih (fun r2 hr2 => hnames r2 (List.mem_cons_of_mem _ hr2)) ?_ hres
      unfold insertRowRange at hins
      split_ifs at hins with hk
      · cases hins
        exact h
      · rcases hMin : r.Min with _ | a <;> rcases hMax : r.Max with _ | b <;>
          rcases hAvg : r.Average with _ | c <;> rw [hMin, hMax, hAvg] at hins <;>
          simp only [Option.some.injEq, reduceCtorEq] at hins
        subst hins
        rw [alookup_append_of_none _ h,
          alookup_single_of_ne _ (hnames r (List.mem_cons_self r rest))]

/-- The resolver loop splits over list concatenation. -/
lemma rangesFromRows_append (l1 : List Row) :
    ∀ (m : List (String × Range)) (l2 : List Row),
      rangesFromRows m (l1 ++ l2) =
        (rangesFromRows m l1).bind fun m1 => rangesFromRows m1 l2 := by
  induction l1 with
  | nil =>
    intro m l2
    rfl
  | cons r rest ih =>
    intro m l2
    rw [List.cons_append, rangesFromRows, rangesFromRows]
    rcases insertRowRange m r with _ | m1
    · rfl
    · exact ih m1 l2

/-- Claim C6: when resolution succeeds, the resolved range for a parameter
name equals the first row carrying that name exactly — later rows with the
same name are ignored even when their Min/Max/Average differ. -/
theorem c6_first_occurrence_wins (pre : List Row) (r : Row) (post : List Row)
    (mn mx av : ℚ) (m : List (String × Range))
    (hpre : ∀ r2 ∈ pre, r2.Process_Parameters ≠ r.Process_Parameters)
    (hmn : r.Min = some mn) (hmx : r.Max = some mx) (hav : r.Average = some av)
    (hres : get_parameter_ranges (pre ++ r :: post) = some m) :
    alookup m r.Process_Parameters = some ⟨mn, mx, av⟩ := by
  unfold get_parameter_ranges at hres
  rcases Option.map_eq_some'.1 hres with ⟨m0, hm0, hmdef⟩
  rw [rangesFromRows_append] at hm0
  rcases hpm : rangesFromRows [] pre with _ | m1
  · rw [hpm] at hm0
    exact absurd hm0 (by simp)
  · rw [hpm] at hm0
    have hnone : alookup m1 r.Process_Parameters = none :=
      rangesFromRows_pres_none pre hpre (alookup_nil _) hpm
    rw [Option.some_bind, rangesFromRows] at hm0
    have hins : insertRowRange m1 r =
        some (m1 ++ [(r.Process_Parameters, ⟨mn, mx, av⟩)]) := by
      unfold insertRowRange
      rw [if_neg (by simp [hnone]), hmn, hmx, hav]
    rw [hins] at hm0
    have hsome : alookup (m1 ++ [(r.Process_Parameters, ⟨mn, mx, av⟩)])
        r.Process_Parameters = some ⟨mn, mx, av⟩ := by
      rw [alookup_append_of_none _ hnone, alookup_single_self]
    have hm0some : alookup m0 r.Process_Parameters = some ⟨mn, mx, av⟩ :=
      rangesFromRows_pres_some post hsome hm0
    rw [← hmdef]
    exact alookup_addDefault_of_some _ _
      (alookup_addDefault_of_some _ _ (alookup_addDefault_of_some _ _ hm0some))

/-- Claim C6, witness: the scenario from the specification — two `CALIPER`
rows with different ranges resolve to the first row's values exactly. -/
theorem c6_first_occurrence_wins_witness :
    alookup ([("CALIPER", ⟨10, 20, 15⟩), ("BULK", ⟨250, 350, 300⟩),
      ("MOISTURE", ⟨200, 280, 240⟩)] : List (String × Range)) "CALIPER" =
      some ⟨10, 20, 15⟩ :=
  c6_first_occurrence_wins []
    ⟨1, "OK", "CALIPER", some 10, some 20, some 15, []⟩
    [⟨2, "OK", "CALIPER", some 100, some 200, some 150, []⟩] 10 20 15 _
    (by simp) rfl rfl rfl
    (by norm_num [get_parameter_ranges, rangesFromRows, insertRowRange,
      addDefault, alookup]
        decide)

/-- Claim C10: whenever resolution succeeds the returned map has entries for
`CALIPER`, `BULK` and `MOISTURE`; and when one of these names occurs in no
dataset row, its entry is exactly the fixed domain default:
`{250, 300, 275}` for `CALIPER`, `{250, 350, 300}` for `BULK`,
`{200, 280, 240}` for `MOISTURE`. -/
theorem c10_default_ranges (rows : List Row) (m : List (String × Range))
    (hres : get_parameter_ranges rows = some m) :
    ((alookup m "CALIPER").isSome = true ∧ (alookup m "BULK").isSome = true ∧
      (alookup m "MOISTURE").isSome = true) ∧
    ((∀ r ∈ rows, r.Process_Parameters ≠ "CALIPER") →
      alookup m "CALIPER" = some ⟨250, 300, 275⟩) ∧
    ((∀ r ∈ rows, r.Process_Parameters ≠ "BULK") →
      alookup m "BULK" = some ⟨250, 350, 300⟩) ∧
    ((∀ r ∈ rows, r.Process_Parameters ≠ "MOISTURE") →
      alookup m "MOISTURE" = some ⟨200, 280, 240⟩) := by
  unfold get_parameter_ranges at hres
  rcases Option.map_eq_some'.1 hres with ⟨m0, hm0, hmdef⟩
  subst hmdef
  refine ⟨⟨?_, ?_, ?_⟩, ?_, ?_, ?_⟩
  · rcases hc : alookup (addDefault m0 "CALIPER" ⟨250, 300, 275⟩) "CALIPER"
      with _ | w
    · have := alookup_addDefault_isSome m0 "CALIPER" ⟨250, 300, 275⟩
      rw [hc] at this
      exact absurd this (by simp)
    · rw [alookup_addDefault_of_some _ _ (alookup_addDefault_of_some _ _ hc)]
      rfl
  · rcases hb : alookup (addDefault (addDefault m0 "CALIPER" ⟨250, 300, 275⟩)
        "BULK" ⟨250, 350, 300⟩) "BULK" with _ | w
    · have := alookup_addDefault_isSome
        (addDefault m0 "CALIPER" ⟨250, 300, 275⟩) "BULK" ⟨250, 350, 300⟩
      rw [hb] at this
      exact absurd this (by simp)
    · rw [alookup_addDefault_of_some _ _ hb]
      rfl
  · exact alookup_addDefault_isSome _ "MOISTURE" ⟨200, 280, 240⟩
  · intro habs
    have h0 : alookup m0 "CALIPER" = none :=
      rangesFromRows_pres_none rows habs (alookup_nil _) hm0
    rw [alookup_addDefault_of_some _ _ (alookup_addDefault_of_some _ _
      (alookup_addDefault_of_none _ h0))]
  · intro habs
    have h0 : alookup m0 "BULK" = none :=
      rangesFromRows_pres_none rows habs (alookup_nil _) hm0
    have h1 : alookup (addDefault m0 "CALIPER" ⟨250, 300, 275⟩) "BULK" = none := by
      rw [alookup_addDefault_of_ne _ (by decide), h0]
    rw [alookup_addDefault_of_some _ _ (alookup_addDefault_of_none _ h1)]
  · intro habs
    have h0 : alookup m0 "MOISTURE" = none :=
      rangesFromRows_pres_none rows habs (alookup_nil _) hm0
    have h1 : alookup (addDefault (addDefault m0 "CALIPER" ⟨250, 300, 275⟩)
        "BULK" ⟨250, 350, 300⟩) "MOISTURE" = none := by
      rw [alookup_addDefault_of_ne _ (by decide),
        alookup_addDefault_of_ne _ (by decide), h0]
    rw [alookup_addDefault_of_none _ h1]

/-- Claim C10, witness: on the empty dataset the three defaults are exactly
the returned map. -/
theorem c10_default_ranges_witness :
    alookup ([("CALIPER", ⟨250, 300, 275⟩), ("BULK", ⟨250, 350, 300⟩),
        ("MOISTURE", ⟨200, 280, 240⟩)] : List (String × Range)) "CALIPER" =
      some ⟨250, 300, 275⟩ ∧
    alookup ([("CALIPER", ⟨250, 300, 275⟩), ("BULK", ⟨250, 350, 300⟩),
        ("MOISTURE", ⟨200, 280, 240⟩)] : List (String × Range)) "BULK" =
      some ⟨250, 350, 300⟩ ∧
    alookup ([("CALIPER", ⟨250, 300, 275⟩), ("BULK", ⟨250, 350, 300⟩),
        ("MOISTURE", ⟨200, 280, 240⟩)] : List (String × Range)) "MOISTURE" =
      some ⟨200, 280, 240⟩ := by
  have h := c10_default_ranges []
    [("CALIPER", ⟨250, 300, 275⟩), ("BULK", ⟨250, 350, 300⟩),
     ("MOISTURE", ⟨200, 280, 240⟩)]
    (by norm_num [get_parameter_ranges, rangesFromRows, addDefault, alookup]
        decide)
  exact ⟨h.2.1 (by simp), h.2.2.1 (by simp), h.2.2.2 (by simp)⟩

/-! ### Claims about the Record Evaluator -/

/-- Every verdict the analysis loop emits has one of the three pass/fail
statuses — `"INVALID"` never occurs, because only non-NaN numeric values
reach the classifier. -/
lemma mem_evalParams_status {groups : List (String × List String)}
    {record : List (String × Option ℚ)} {ranges : List (String × Range)}
    {v : Verdict} (h : v ∈ evalParams groups record ranges) :
    v.status = "PASS" ∨ v.status = "FAIL_LOW" ∨ v.status = "FAIL_HIGH" := by
  rcases List.mem_flatMap.1 h with ⟨g, _, hv⟩
  rcases List.mem_filterMap.1 hv with ⟨p, _, hep⟩
  unfold evalGroupParam at hep
  rcases hrec : alookup record p with _ | cell <;> rw [hrec] at hep
  · exact absurd hep (by simp)
  · rcases cell with _ | x
    · exact absurd hep (by simp)
    · rcases hrg : alookup ranges p with _ | rg <;> rw [hrg] at hep
      · exact absurd hep (by simp)
      · simp only [Option.some.injEq] at hep
        subst hep
        exact get_parameter_status_cases x rg.min rg.max

/-- Claim C7: the Overall Status metric is `"FAIL"` exactly when some
in-scope parameter's verdict is `"FAIL_LOW"` or `"FAIL_HIGH"` and `"PASS"`
otherwise; and it is independent of the record's own declared `Quality`
field. -/
theorem c7_overall_status (groups : List (String × List String)) (row : Row)
    (ranges : List (String × Range)) :
    (quality_status groups row ranges = "FAIL" ↔
      ∃ v ∈ evalParams groups row.fields ranges,
        v.status = "FAIL_LOW" ∨ v.status = "FAIL_HIGH") ∧
    (∀ q : String,
      quality_status groups { row with Quality := q } ranges =
        quality_status groups row ranges) := by
  constructor
  · unfold quality_status
    by_cases h : (failuresOf (evalParams groups row.fields ranges)).isEmpty
    · rw [if_pos h]
      constructor
      · intro hf
        exact absurd hf (by decide)
      · rintro ⟨v, hv, hst⟩
        rw [List.isEmpty_iff] at h
        have hvf : v ∈ failuresOf (evalParams groups row.fields ranges) := by
          unfold failuresOf
          refine List.mem_filter.2 ⟨hv, ?_⟩
          rcases hst with h2 | h2 <;> simp [h2]
        rw [h] at hvf
        exact absurd hvf (List.not_mem_nil v)
    · rw [if_neg h]
      constructor
      · intro _
        have hne : failuresOf (evalParams groups row.fields ranges) ≠ [] := by
          intro h0
          exact h (by rw [h0]; rfl)
        rcases List.exists_mem_of_ne_nil _ hne with ⟨v, hv⟩
        have hv2 := List.mem_filter.1 hv
        refine ⟨v, hv2.1, ?_⟩
        have hne2 : v.status ≠ "PASS" := by simpa using hv2.2
        rcases mem_evalParams_status hv2.1 with h3 | h3 | h3
        · exact absurd h3 hne2
        · exact Or.inl h3
        · exact Or.inr h3
      · intro _
        rfl
  · intro q
    rfl

/-- Claim C8: the failure display list is the `failures` list sorted by
descending absolute deviation — it is a permutation of the non-PASS verdicts
in which every earlier entry has absolute deviation at least that of every
later entry. -/
theorem c8_failures_sorted (groups : List (String × List String)) (row : Row)
    (ranges : List (String × Range)) :
    List.Sorted devGE (sorted_out_of_range
      (failuresOf (evalParams groups row.fields ranges))) ∧
    List.Perm (sorted_out_of_range (failuresOf (evalParams groups row.fields ranges)))
      (failuresOf (evalParams groups row.fields ranges)) :=
  ⟨List.sorted_insertionSort devGE _, List.perm_insertionSort devGE _⟩

/-! ### Rounding lemmas and the failure-percentage claim -/

lemma roundHalfEven_nonneg {q : ℚ} (h : 0 ≤ q) : 0 ≤ roundHalfEven q := by
  have h0 : (0 : ℤ) ≤ ⌊q⌋ := Int.floor_nonneg.2 h
  unfold roundHalfEven
  split_ifs <;> omega

lemma roundHalfEven_le {q : ℚ} {B : ℤ} (h : q ≤ (B : ℚ)) :
    roundHalfEven q ≤ B := by
  have hfB : ⌊q⌋ ≤ B := by
    have h2 := Int.floor_le_floor h
    rwa [Int.floor_intCast] at h2
  have hkey : ¬(q - ⌊q⌋ < 1/2) → ⌊q⌋ + 1 ≤ B := by
    intro hge
    have h1 : (⌊q⌋ : ℚ) + 1/2 ≤ q := by
      have h2 := not_lt.1 hge
      linarith
    have h2 : (⌊q⌋ : ℚ) < (B : ℚ) := by linarith
    have h3 : ⌊q⌋ < B := by exact_mod_cast h2
    omega
  unfold roundHalfEven
  split_ifs with h1 h2 h3
  · exact hfB
  · exact hkey h1
  · exact hfB
  · exact hkey h1

lemma round1_nonneg {q : ℚ} (h : 0 ≤ q) : 0 ≤ round1 q := by
  unfold round1
  have h1 : (0 : ℤ) ≤ roundHalfEven (q * 10) :=
    roundHalfEven_nonneg (by positivity)
  exact div_nonneg (by exact_mod_cast h1) (by norm_num)

lemma round1_le_hundred {q : ℚ} (h : q ≤ 100) : round1 q ≤ 100 := by
  unfold round1
  have h1 : q * 10 ≤ ((1000 : ℤ) : ℚ) := by push_cast; linarith
  have h2 : roundHalfEven (q * 10) ≤ 1000 := roundHalfEven_le h1
  have h3 : ((roundHalfEven (q * 10) : ℤ) : ℚ) ≤ 1000 := by exact_mod_cast h2
  linarith

/-- Claim C9: for every parameter the aggregator reports (failure count at
least 1), the failure percentage lies in [0, 100] and equals the failure
count divided by the number of unique failing track identifiers, times 100,
rounded to one decimal. -/
theorem c9_failure_percentage (rows : List Row) (tracks : List Int)
    (p : String) (rg : Range) (h : 1 ≤ failure_count rows tracks p rg) :
    (0 ≤ failure_percentage rows tracks p rg ∧
      failure_percentage rows tracks p rg ≤ 100) ∧
    failure_percentage rows tracks p rg =
      round1 ((failure_count rows tracks p rg : ℚ) / (tracks.length : ℚ) * 100) := by
  have hcn : failure_count rows tracks p rg ≤ tracks.length :=
    List.length_filter_le _ _
  have hn : 1 ≤ tracks.length := le_trans h hcn
  have hnpos : (0 : ℚ) < (tracks.length : ℚ) := by exact_mod_cast hn
  have hq0 : 0 ≤ (failure_count rows tracks p rg : ℚ) / (tracks.length : ℚ) * 100 := by
    positivity
  have hq1 : (failure_count rows tracks p rg : ℚ) / (tracks.length : ℚ) * 100 ≤ 100 := by
    have hdiv : (failure_count rows tracks p rg : ℚ) / (tracks.length : ℚ) ≤ 1 :=
      (div_le_one hnpos).2 (by exact_mod_cast hcn)
    linarith
  exact ⟨⟨round1_nonneg hq0, round1_le_hundred hq1⟩, rfl⟩

/-- Claim C9, witness: one NOT OK track whose value 5 fails the range [0, 1]
gives failure count 1 out of 1 track and percentage 100. -/
theorem c9_failure_percentage_witness :
    (0 ≤ failure_percentage
        [⟨1, "NOT OK", "X", some 0, some 1, some 0, [("X", some 5)]⟩]
        [1] "X" ⟨0, 1, 0⟩ ∧
      failure_percentage
        [⟨1, "NOT OK", "X", some 0, some 1, some 0, [("X", some 5)]⟩]
        [1] "X" ⟨0, 1, 0⟩ ≤ 100) ∧
    failure_percentage
        [⟨1, "NOT OK", "X", some 0, some 1, some 0, [("X", some 5)]⟩]
        [1] "X" ⟨0, 1, 0⟩ =
      round1 ((failure_count
          [⟨1, "NOT OK", "X", some 0, some 1, some 0, [("X", some 5)]⟩]
          [1] "X" ⟨0, 1, 0⟩ : ℚ) / (([1] : List Int).length : ℚ) * 100) :=
  c9_failure_percentage
    [⟨1, "NOT OK", "X", some 0, some 1, some 0, [("X", some 5)]⟩]
    [1] "X" ⟨0, 1, 0⟩
    (by norm_num [failure_count, track_fails, trackParamValue, alookup, List.find?])

end App
